import Mathlib

/-
Shallow embedding of the Tutorly backend (src/main.py): configuration
loader, identity-verification dependency, relational schema bootstrap,
per-request database session, and the two HTTP handlers, together with
proofs of the specification claims about them.
-/

namespace Tutorly

/-! ## Configuration loader (src/main.py lines 31-40) -/

/-- The pydantic settings object: `app_name`, `env`, `frontend_url`,
with defaults `"tutorly"`, `os.getenv("ENV", "development")`,
`os.getenv("FRONTEND_URL", "NA")`. -/
structure Settings where
  app_name : String
  env : String
  frontend_url : String
deriving DecidableEq

/-- Construction of `Settings()`: each field falls back to its default
when the corresponding environment variable is absent.  The process
environment is modelled as a partial map from variable names to values. -/
def mkSettings (getenv : String → Option String) : Settings :=
  { app_name := "tutorly"
  , env := (getenv "ENV").getD "development"
  , frontend_url := (getenv "FRONTEND_URL").getD "NA" }

/-- `get_settings` under `@lru_cache`: the cache of a zero-argument
function is a single optional slot.  A call returns the cached instance
when present, otherwise constructs `Settings()` and caches it.  The
environment is read only on a cache miss. -/
def get_settings (getenv : String → Option String) :
    Option Settings → Settings × Option Settings
  | some s => (s, some s)
  | none => (mkSettings getenv, some (mkSettings getenv))

/-! ## Identity verification dependency (src/main.py lines 43-56) -/

/-- The bearer credential extracted by `HTTPBearer(auto_error=False)`:
`scheme` and `credentials` fields; absence is modelled at use sites by
`Option`. -/
structure HTTPAuthorizationCredentials where
  scheme : String
  credentials : String

/-- An `HTTPException`: status code, detail message, response headers. -/
structure HTTPException where
  status_code : Nat
  detail : String
  headers : List (String × String)
deriving DecidableEq

/-- The decoded Firebase principal: the claims used by the handlers are
the unique identifier `uid` and the verified `email`. -/
structure FirebaseUser where
  uid : String
  email : String
deriving DecidableEq

/-- The single error raised by `get_firebase_user_from_token` on any
failure: 401, fixed detail, `WWW-Authenticate: Bearer` header. -/
def unauthorized_exception : HTTPException :=
  { status_code := 401
  , detail := "Not logged in or Invalid credentials"
  , headers := [("WWW-Authenticate", "Bearer")] }

/-- `get_firebase_user_from_token`: inside one `try`, a missing token
raises `ValueError` and `verify_id_token` may raise; the `except` clause
maps every exception to the one `HTTPException`.  The external
`verify_id_token` is a parameter returning the decoded principal or an
error (a raised exception). -/
def get_firebase_user_from_token
    (verify_id_token : String → Except String FirebaseUser)
    (token : Option HTTPAuthorizationCredentials) :
    Except HTTPException FirebaseUser :=
  match token with
  | none => Except.error unauthorized_exception
  | some t =>
    match verify_id_token t.credentials with
    | Except.ok user => Except.ok user
    | Except.error _ => Except.error unauthorized_exception

/-- FastAPI response status: a handler that returns normally yields the
default HTTP 200; a raised `HTTPException` yields its own status code. -/
def responseStatus {α : Type} : Except HTTPException α → Nat
  | Except.ok _ => 200
  | Except.error e => e.status_code

/-! ## HTTP handlers for /userid (src/main.py lines 62-65 and 202-205) -/

/-- The body of `GET /userid`: `{"id": user["uid"]}`. -/
structure UserIdResponse where
  id : String
deriving DecidableEq

/-- First registration of the `/userid` handler (lines 62-65). -/
def get_userid (user : FirebaseUser) : UserIdResponse :=
  { id := user.uid }

/-- Second, textually identical registration of the `/userid` handler
(lines 202-205). -/
def get_userid_dup (user : FirebaseUser) : UserIdResponse :=
  { id := user.uid }

/-! ## Relational schema (src/main.py lines 93-150) -/

/-- SQLAlchemy column types used by the schema. -/
inductive ColType
  | string
  | integer
  | boolean
  | json
deriving DecidableEq

/-- A declared column: name, type, `primary_key`, `autoincrement`,
`nullable`, `unique`, and an optional foreign-key target. -/
structure Column where
  name : String
  ty : ColType
  primary_key : Bool
  autoincrement : Bool
  nullable : Bool
  unique : Bool
  foreign_key : Option String
deriving DecidableEq

/-- A declared table: name and columns. -/
structure Table where
  name : String
  columns : List Column
deriving DecidableEq

/-- The `users` table (class `User(Base)`, lines 97-104). -/
def users_table : Table :=
  { name := "users"
  , columns :=
    [ ⟨"firebase_uid", ColType.string, true, false, false, false, none⟩
    , ⟨"first_name", ColType.string, false, false, false, false, none⟩
    , ⟨"last_name", ColType.string, false, false, false, false, none⟩
    , ⟨"email", ColType.string, false, false, false, true, none⟩
    , ⟨"profile_photo", ColType.string, false, false, true, false, none⟩
    , ⟨"cover_photo", ColType.string, false, false, true, false, none⟩ ] }

/-- The `tutors` table (class `Tutor(Base)`, lines 108-118). -/
def tutors_table : Table :=
  { name := "tutors"
  , columns :=
    [ ⟨"id", ColType.integer, true, true, false, false, none⟩
    , ⟨"firebase_uid", ColType.string, false, false, false, false, some "users.firebase_uid"⟩
    , ⟨"alma_mater", ColType.string, false, false, true, false, none⟩
    , ⟨"credential", ColType.string, false, false, true, false, none⟩
    , ⟨"bio", ColType.string, false, false, true, false, none⟩
    , ⟨"subjects", ColType.json, false, false, true, false, none⟩
    , ⟨"grades", ColType.json, false, false, true, false, none⟩
    , ⟨"tutorStatus", ColType.string, false, false, true, false, none⟩
    , ⟨"availability", ColType.json, false, false, true, false, none⟩ ] }

/-- The `students` table (class `Student(Base)`, lines 122-130). -/
def students_table : Table :=
  { name := "students"
  , columns :=
    [ ⟨"id", ColType.integer, true, true, false, false, none⟩
    , ⟨"firebase_uid", ColType.string, false, false, false, false, some "users.firebase_uid"⟩
    , ⟨"high_school", ColType.string, false, false, true, false, none⟩
    , ⟨"grade", ColType.integer, false, false, true, false, none⟩
    , ⟨"bio", ColType.string, false, false, true, false, none⟩
    , ⟨"subjects", ColType.json, false, false, true, false, none⟩
    , ⟨"studentStatus", ColType.string, false, false, true, false, none⟩ ] }

/-- The `sessions` table (class `Session(Base)`, lines 134-146). -/
def sessions_table : Table :=
  { name := "sessions"
  , columns :=
    [ ⟨"id", ColType.integer, true, true, false, false, none⟩
    , ⟨"tutor_id", ColType.string, false, false, false, false, some "users.firebase_uid"⟩
    , ⟨"student_id", ColType.string, false, false, false, false, some "users.firebase_uid"⟩
    , ⟨"scheduled_time", ColType.integer, false, false, true, false, none⟩
    , ⟨"duration", ColType.integer, false, false, true, false, none⟩
    , ⟨"location", ColType.json, false, false, true, false, none⟩
    , ⟨"address", ColType.string, false, false, true, false, none⟩
    , ⟨"payment_status", ColType.boolean, false, false, true, false, none⟩
    , ⟨"subject", ColType.string, false, false, true, false, none⟩ ] }

/-- Modelled from the spec: the second bootstrap module of the
repository (not under src/) additionally declares an `Item` table with
an auto-incrementing integer primary key, `name`, and `description`
("**Item** (incidental, unused by any endpoint): auto-incrementing
integer primary key, `name`, `description`"). -/
def items_table : Table :=
  { name := "items"
  , columns :=
    [ ⟨"id", ColType.integer, true, true, false, false, none⟩
    , ⟨"name", ColType.string, false, false, true, false, none⟩
    , ⟨"description", ColType.string, false, false, true, false, none⟩ ] }

/-- The tables registered on `Base.metadata` in src/main.py. -/
def base_metadata : List Table :=
  [users_table, tutors_table, students_table, sessions_table]

/-- The union of the declared tables of the two bootstrap modules: the
four of src/main.py plus the spec-modelled `items` table. -/
def all_declared_tables : List Table :=
  base_metadata ++ [items_table]

/-- `Base.metadata.create_all`: for each declared table in order, create
it in the backing store when a table of that name does not already
exist; existing tables are left untouched.  The store is modelled by the
list of its table names. -/
def create_all : List Table → List String → List String
  | [], store => store
  | t :: ts, store =>
    create_all ts (if t.name ∈ store then store else store ++ [t.name])

/-! ## Database rows and per-request session (src/main.py lines 154-178) -/

/-- A persisted `users` row. -/
structure User where
  firebase_uid : String
  first_name : String
  last_name : String
  email : String
  profile_photo : Option String
  cover_photo : Option String
deriving DecidableEq

/-- The request body of `POST /users` (`class UserCreate(BaseModel)`):
`first_name`, `last_name`, `email` required; `profile_photo` and
`cover_photo` defaulting to `None`. -/
structure UserCreate where
  first_name : String
  last_name : String
  email : String
  profile_photo : Option String
  cover_photo : Option String
deriving DecidableEq

/-- A database session handed to one request by `get_db`; `closeCount`
tracks how often `db.close()` has run on it. -/
structure DBSession where
  closeCount : Nat
deriving DecidableEq

/-- `db.close()` on a session. -/
def DBSession.close (s : DBSession) : DBSession :=
  { closeCount := s.closeCount + 1 }

/-- `get_db`: create a session from `SessionLocal`, yield it to the
handler, and in the `finally` block close it — on the normal-return path
and on the error path alike.  The handler is any computation that uses
the session and either returns a value or raises. -/
def get_db {α : Type} (handler : DBSession → Except HTTPException α) :
    Except HTTPException α × DBSession :=
  let db : DBSession := { closeCount := 0 }
  match handler db with
  | Except.ok a => (Except.ok a, db.close)
  | Except.error e => (Except.error e, db.close)

/-! ## Create-user handler (src/main.py lines 181-199) -/

/-- The row constructed by the handler body: `User(**user_data.model_dump())`
followed by `user.firebase_uid = fbuser_data["uid"]` and
`user.email = fbuser_data["email"]` — submitted fields, with the
identifier and email overridden from the verified principal. -/
def created_row (user_data : UserCreate) (fbuser_data : FirebaseUser) : User :=
  { firebase_uid := fbuser_data.uid
  , first_name := user_data.first_name
  , last_name := user_data.last_name
  , email := fbuser_data.email
  , profile_photo := user_data.profile_photo
  , cover_photo := user_data.cover_photo }

/-- The body of `create_user`: query the first `users` row whose
`firebase_uid` equals the uid of the principal; if present raise
`HTTPException(400, "User already exists")`, else construct the row,
add, commit and return it.  The table is modelled as the list of its
rows in insertion order; `db.add` + `db.commit` append the new row. -/
def create_user (user_data : UserCreate) (fbuser_data : FirebaseUser)
    (db : List User) : Except HTTPException User × List User :=
  match db.find? (fun r => r.firebase_uid == fbuser_data.uid) with
  | some _ =>
    (Except.error { status_code := 400, detail := "User already exists", headers := [] }, db)
  | none =>
    let user := created_row user_data fbuser_data
    (Except.ok user, db ++ [user])

/-- The `POST /users` endpoint as FastAPI runs it: the authentication
dependency resolves first; when it raises, the handler body never runs
and the response is the exception of the dependency; otherwise the body runs
with the decoded principal. -/
def create_user_endpoint (verify_id_token : String → Except String FirebaseUser)
    (token : Option HTTPAuthorizationCredentials) (user_data : UserCreate)
    (db : List User) : Except HTTPException User × List User :=
  match get_firebase_user_from_token verify_id_token token with
  | Except.error e => (Except.error e, db)
  | Except.ok fbuser_data => create_user user_data fbuser_data db

/-! ## Cross-origin policy (src/main.py lines 68-76) -/

/-- The arguments handed to `CORSMiddleware` at bootstrap. -/
structure CORSConfig where
  allow_origins : List String
  allow_credentials : Bool
  allow_methods : List String
  allow_headers : List String
deriving DecidableEq

/-- The policy installed by `app.add_middleware(CORSMiddleware, ...)`:
origins `[settings.frontend_url]`, credentials on, all methods, all
headers. -/
def cors_config (settings : Settings) : CORSConfig :=
  { allow_origins := [settings.frontend_url]
  , allow_credentials := true
  , allow_methods := ["*"]
  , allow_headers := ["*"] }

/-- Origin admission of the middleware: an origin is allowed when the
configured list holds the wildcard or holds that origin. -/
def is_allowed_origin (c : CORSConfig) (origin : String) : Bool :=
  c.allow_origins.contains "*" || c.allow_origins.contains origin

/-- Method admission of the middleware: wildcard or listed. -/
def is_allowed_method (c : CORSConfig) (m : String) : Bool :=
  c.allow_methods.contains "*" || c.allow_methods.contains m

/-- Header admission of the middleware: wildcard or listed. -/
def is_allowed_header (c : CORSConfig) (h : String) : Bool :=
  c.allow_headers.contains "*" || c.allow_headers.contains h

/-! ## Helper lemmas -/

/-- A table name already present in the store survives `create_all`. -/
lemma mem_create_all_of_mem_store (ts : List Table) (store : List String)
    (n : String) (h : n ∈ store) : n ∈ create_all ts store := by
  induction ts generalizing store with
  | nil => exact h
  | cons t ts ih =>
    simp only [create_all]
    split
    · exact ih _ h
    · exact ih _ (List.mem_append_left _ h)

/-- Every declared table exists in the store after `create_all`. -/
lemma mem_create_all_of_mem_tables (ts : List Table) (t : Table) :
    ∀ store : List String, t ∈ ts → t.name ∈ create_all ts store := by
  induction ts with
  | nil => intro store h; cases h
  | cons t0 ts ih =>
    intro store h
    rcases List.mem_cons.mp h with h1 | h2
    · subst h1
      simp only [create_all]
      split
      · next hmem => exact mem_create_all_of_mem_store _ _ _ hmem
      · exact mem_create_all_of_mem_store _ _ _
          (List.mem_append_right _ (List.mem_singleton.mpr rfl))
    · simp only [create_all]
      exact ih _ h2

/-! ## Concrete inputs shared by the witnesses -/

/-- A concrete request body. -/
def adaBody : UserCreate :=
  { first_name := "Ada", last_name := "Lovelace", email := "ignored@example.com"
  , profile_photo := none, cover_photo := none }

/-- A concrete verified principal. -/
def adaPrincipal : FirebaseUser :=
  { uid := "U1", email := "ada@provider.example" }

/-- The row persisted for that body and principal. -/
def adaRow : User := created_row adaBody adaPrincipal

/-- A token verifier that rejects every credential. -/
def failingVerifier : String → Except String FirebaseUser :=
  fun _ => Except.error "verification failed"

/-! ## Claim theorems -/

/-- Claim C1: for a valid principal with no existing User row keyed by
its uid, `create_user` appends exactly one new row whose `firebase_uid`
is the uid of the principal and whose stored email is the verified email
claim of the principal (the submitted email is discarded), returns that
row, and the response status is HTTP 200. -/
theorem create_user_inserts (user_data : UserCreate) (fbuser_data : FirebaseUser)
    (db : List User)
    (h : db.find? (fun r => r.firebase_uid == fbuser_data.uid) = none) :
    create_user user_data fbuser_data db =
      (Except.ok (created_row user_data fbuser_data),
        db ++ [created_row user_data fbuser_data])
    ∧ (created_row user_data fbuser_data).firebase_uid = fbuser_data.uid
    ∧ (created_row user_data fbuser_data).email = fbuser_data.email
    ∧ (created_row user_data fbuser_data).first_name = user_data.first_name
    ∧ (created_row user_data fbuser_data).last_name = user_data.last_name
    ∧ (db ++ [created_row user_data fbuser_data]).countP
        (fun r => r.firebase_uid == fbuser_data.uid) = 1
    ∧ responseStatus (create_user user_data fbuser_data db).1 = 200 := by
  have h0 : db.countP (fun r => r.firebase_uid == fbuser_data.uid) = 0 :=
    List.countP_eq_zero.mpr (List.find?_eq_none.mp h)
  refine ⟨?_, rfl, rfl, rfl, rfl, ?_, ?_⟩
  · simp [create_user, h]
  · rw [List.countP_append, h0]
    simp [created_row, List.countP_cons]
  · simp [create_user, h, responseStatus]

/-- Witness for C1 at a concrete body, principal and empty table. -/
theorem create_user_inserts_witness :
    create_user adaBody adaPrincipal [] =
      (Except.ok (created_row adaBody adaPrincipal),
        [] ++ [created_row adaBody adaPrincipal])
    ∧ (created_row adaBody adaPrincipal).firebase_uid = adaPrincipal.uid
    ∧ (created_row adaBody adaPrincipal).email = adaPrincipal.email
    ∧ (created_row adaBody adaPrincipal).first_name = adaBody.first_name
    ∧ (created_row adaBody adaPrincipal).last_name = adaBody.last_name
    ∧ (([] : List User) ++ [created_row adaBody adaPrincipal]).countP
        (fun r => r.firebase_uid == adaPrincipal.uid) = 1
    ∧ responseStatus (create_user adaBody adaPrincipal []).1 = 200 :=
  create_user_inserts adaBody adaPrincipal [] rfl

/-- Claim C2: when a User row keyed by the uid of the principal already
exists, `create_user` fails with HTTP 400 and detail
`"User already exists"`, and the table is unchanged. -/
theorem create_user_duplicate (user_data : UserCreate) (fbuser_data : FirebaseUser)
    (db : List User) (existing : User)
    (h : db.find? (fun r => r.firebase_uid == fbuser_data.uid) = some existing) :
    create_user user_data fbuser_data db =
      (Except.error (HTTPException.mk 400 "User already exists" []), db)
    ∧ responseStatus (create_user user_data fbuser_data db).1 = 400
    ∧ (create_user user_data fbuser_data db).2 = db := by
  refine ⟨?_, ?_, ?_⟩ <;> simp [create_user, h, responseStatus]

/-- Witness for C2: repeating the concrete creation of C1. -/
theorem create_user_duplicate_witness :
    create_user adaBody adaPrincipal [adaRow] =
      (Except.error (HTTPException.mk 400 "User already exists" []), [adaRow])
    ∧ responseStatus (create_user adaBody adaPrincipal [adaRow]).1 = 400
    ∧ (create_user adaBody adaPrincipal [adaRow]).2 = [adaRow] :=
  create_user_duplicate adaBody adaPrincipal [adaRow] adaRow (by decide)

/-- Claim C3: the authentication dependency fails with the one uniform
outcome — 401, fixed detail, `WWW-Authenticate: Bearer` — both when no
bearer credential is present and when verification raises; the two
failure cases are indistinguishable to the caller. -/
theorem auth_uniform_401 (verify_id_token : String → Except String FirebaseUser)
    (t : HTTPAuthorizationCredentials) (e : String)
    (h : verify_id_token t.credentials = Except.error e) :
    get_firebase_user_from_token verify_id_token none =
      Except.error unauthorized_exception
    ∧ get_firebase_user_from_token verify_id_token (some t) =
      Except.error unauthorized_exception
    ∧ get_firebase_user_from_token verify_id_token (some t) =
      get_firebase_user_from_token verify_id_token none
    ∧ unauthorized_exception.status_code = 401
    ∧ unauthorized_exception.detail = "Not logged in or Invalid credentials"
    ∧ unauthorized_exception.headers = [("WWW-Authenticate", "Bearer")] := by
  refine ⟨rfl, ?_, ?_, rfl, rfl, rfl⟩ <;>
    simp [get_firebase_user_from_token, h]

/-- Witness for C3 at a concrete rejected credential. -/
theorem auth_uniform_401_witness :
    get_firebase_user_from_token failingVerifier none =
      Except.error unauthorized_exception
    ∧ get_firebase_user_from_token failingVerifier
        (some (HTTPAuthorizationCredentials.mk "Bearer" "badtoken")) =
      Except.error unauthorized_exception
    ∧ get_firebase_user_from_token failingVerifier
        (some (HTTPAuthorizationCredentials.mk "Bearer" "badtoken")) =
      get_firebase_user_from_token failingVerifier none
    ∧ unauthorized_exception.status_code = 401
    ∧ unauthorized_exception.detail = "Not logged in or Invalid credentials"
    ∧ unauthorized_exception.headers = [("WWW-Authenticate", "Bearer")] :=
  auth_uniform_401 failingVerifier
    (HTTPAuthorizationCredentials.mk "Bearer" "badtoken") "verification failed" rfl

/-- Claim C4: for every authenticated principal, `GET /userid` returns
exactly the object with `id` equal to the uid of the principal,
independently of the database contents — the handler takes no database
session at all, which the unused quantified table below records. -/
theorem get_userid_identity (user : FirebaseUser) (db : List User) :
    get_userid user = UserIdResponse.mk user.uid := rfl

/-- Claim C5: schema initialization ensures all five declared tables —
users, tutors, students, sessions and items — exist in the backing
store whatever its initial contents, and the `items` table carries an
auto-incrementing integer primary key `id` plus `name` and
`description`.  The `items` declaration is modelled from the spec (see
`items_table`). -/
theorem schema_creates_all_tables (store : List String) :
    "users" ∈ create_all all_declared_tables store
    ∧ "tutors" ∈ create_all all_declared_tables store
    ∧ "students" ∈ create_all all_declared_tables store
    ∧ "sessions" ∈ create_all all_declared_tables store
    ∧ "items" ∈ create_all all_declared_tables store
    ∧ all_declared_tables.map Table.name =
        ["users", "tutors", "students", "sessions", "items"]
    ∧ items_table.columns.map Column.name = ["id", "name", "description"]
    ∧ items_table.columns.head? =
        some (Column.mk "id" ColType.integer true true false false none) := by
  refine ⟨?_, ?_, ?_, ?_, ?_, rfl, rfl, rfl⟩
  · exact mem_create_all_of_mem_tables _ users_table store
      (by simp [all_declared_tables, base_metadata])
  · exact mem_create_all_of_mem_tables _ tutors_table store
      (by simp [all_declared_tables, base_metadata])
  · exact mem_create_all_of_mem_tables _ students_table store
      (by simp [all_declared_tables, base_metadata])
  · exact mem_create_all_of_mem_tables _ sessions_table store
      (by simp [all_declared_tables, base_metadata])
  · exact mem_create_all_of_mem_tables _ items_table store
      (by simp [all_declared_tables, base_metadata])

/-- Claim C6: `get_db` hands the handler result through unchanged and
the session it created is closed exactly once, on the normal-return
path and on the error path alike (the quantification over the handler
covers both outcomes). -/
theorem get_db_closes_once {α : Type} (handler : DBSession → Except HTTPException α) :
    (get_db handler).1 = handler (DBSession.mk 0)
    ∧ ((get_db handler).2).closeCount = 1 := by
  cases h : handler (DBSession.mk 0) <;>
    simp [get_db, DBSession.close, h]

/-- Claim C7: the installed cross-origin policy lists exactly the
configured frontend URL as allowed origin — any other origin is not
allowed — while all methods, all headers and credentialed requests are
permitted.  The hypothesis records that the configured value is an
actual origin URL and not the middleware wildcard token. -/
theorem cors_single_origin (settings : Settings) (origin m hd : String)
    (hw : settings.frontend_url ≠ "*") :
    (cors_config settings).allow_origins = [settings.frontend_url]
    ∧ (cors_config settings).allow_credentials = true
    ∧ (is_allowed_origin (cors_config settings) origin = true ↔
        origin = settings.frontend_url)
    ∧ is_allowed_method (cors_config settings) m = true
    ∧ is_allowed_header (cors_config settings) hd = true := by
  refine ⟨rfl, rfl, ?_, ?_, ?_⟩
  · simp only [is_allowed_origin, cors_config, List.contains_cons,
      List.contains_nil, Bool.or_false, Bool.or_eq_true, beq_iff_eq]
    constructor
    · rintro (h1 | h2)
      · exact absurd h1.symm hw
      · exact h2
    · intro h1
      exact Or.inr h1
  · simp [is_allowed_method, cors_config]
  · simp [is_allowed_header, cors_config]

/-- Witness for C7 at a concrete configuration and a foreign origin. -/
theorem cors_single_origin_witness :
    (cors_config (Settings.mk "tutorly" "development" "https://tutorly.example.com")).allow_origins
      = [(Settings.mk "tutorly" "development" "https://tutorly.example.com").frontend_url]
    ∧ (cors_config (Settings.mk "tutorly" "development" "https://tutorly.example.com")).allow_credentials = true
    ∧ (is_allowed_origin (cors_config (Settings.mk "tutorly" "development" "https://tutorly.example.com"))
          "https://evil.example.com" = true ↔
        "https://evil.example.com" =
          (Settings.mk "tutorly" "development" "https://tutorly.example.com").frontend_url)
    ∧ is_allowed_method (cors_config (Settings.mk "tutorly" "development" "https://tutorly.example.com"))
        "DELETE" = true
    ∧ is_allowed_header (cors_config (Settings.mk "tutorly" "development" "https://tutorly.example.com"))
        "X-Requested-With" = true :=
  cors_single_origin (Settings.mk "tutorly" "development" "https://tutorly.example.com")
    "https://evil.example.com" "DELETE" "X-Requested-With" (by decide)

/-- Claim C8: `get_settings` is memoized — the first call constructs
the settings and caches them, every later call returns the identical
cached instance (even against a changed environment, since the cache is
keyed on no arguments) — and with no environment variables set the
constructed settings carry the defaults `tutorly`, `development`,
`NA`. -/
theorem get_settings_memoized (getenv getenv2 : String → Option String)
    (s : Settings) :
    get_settings getenv none = (mkSettings getenv, some (mkSettings getenv))
    ∧ get_settings getenv2 (some s) = (s, some s)
    ∧ mkSettings (fun _ => none) = Settings.mk "tutorly" "development" "NA" :=
  ⟨rfl, rfl, rfl⟩

/-- Claim C9: when authentication fails, the `POST /users` endpoint
returns that failure and the database is left exactly as it was — the
handler body never runs. -/
theorem auth_failure_leaves_db_unchanged
    (verify_id_token : String → Except String FirebaseUser)
    (token : Option HTTPAuthorizationCredentials) (user_data : UserCreate)
    (db : List User) (e : HTTPException)
    (h : get_firebase_user_from_token verify_id_token token = Except.error e) :
    create_user_endpoint verify_id_token token user_data db =
      (Except.error e, db) := by
  simp [create_user_endpoint, h]

/-- Witness for C9: a missing token against a nonempty table. -/
theorem auth_failure_leaves_db_unchanged_witness :
    create_user_endpoint failingVerifier none adaBody [adaRow] =
      (Except.error unauthorized_exception, [adaRow]) :=
  auth_failure_leaves_db_unchanged failingVerifier none adaBody [adaRow]
    unauthorized_exception rfl

/-- Claim C10: the two textually identical registrations of the
`GET /userid` handler are extensionally equal — for every authenticated
principal they produce the same response. -/
theorem get_userid_registrations_agree (user : FirebaseUser) :
    get_userid user = get_userid_dup user := rfl

end Tutorly
